import Mathlib

/-!
Shallow embedding of the Operator V7 emergency-dispatch gateway
(src/operator_v7.py) and verification of the frozen specification claims.

Conventions of the embedding:
* Python dicts (which iterate in insertion order and update keys in place)
  are modelled as insertion-ordered association lists with the helpers
  `alistGet`, `alistSet`, `alistRemove` below.
* Python strings are Lean `String`s; the Python primitives `lower`,
  `strip`, `startswith`, `isdigit`, slicing and `int(...)` are modelled at
  the character-list level (`pyLower`, `pyStrip`, `pyStartsWith`, ...).
* Wall-clock time (`time.time()`) is an `Int` number of epoch seconds
  passed in explicitly as `now`.  The source formats timestamps with
  `strftime` and parses them back with `strptime`; since that round trip
  is the identity on whole seconds, sessions store the epoch seconds
  directly and `close_session` subtracts them.
* The radio interface is modelled by the `Radio` structure (node
  directory plus the local node number).  `on_receive` only runs after
  the radio is connected (it is subscribed after `radio_interface` is
  assigned in `main`), so the `if not radio_interface` guards of the
  helpers are always in their radio-present branch here.
* Observable effects (radio sends and audit-log appends) are returned as
  an ordered `List Event`; the work queue is part of the state because
  the router reads its depth.
-/

namespace OperatorV7

/-! ### Python dictionaries as insertion-ordered association lists -/

/-- Lookup in an insertion-ordered association list (Python `d.get(k)`). -/
def alistGet {α : Type} (m : List (String × α)) (k : String) : Option α :=
  match m with
  | [] => none
  | (k1, v1) :: rest => if k1 == k then some v1 else alistGet rest k

/-- Assignment `d[k] = v`: update the key in place if present, else append
(insertion order, as Python dicts since 3.7). -/
def alistSet {α : Type} (m : List (String × α)) (k : String) (v : α) :
    List (String × α) :=
  match m with
  | [] => [(k, v)]
  | (k1, v1) :: rest =>
    if k1 == k then (k, v) :: rest else (k1, v1) :: alistSet rest k v

/-- Removal `d.pop(k, None)` (the keys of every map built here are unique,
so removing the first occurrence is removing the occurrence). -/
def alistRemove {α : Type} (m : List (String × α)) (k : String) :
    List (String × α) :=
  match m with
  | [] => []
  | (k1, v1) :: rest =>
    if k1 == k then rest else (k1, v1) :: alistRemove rest k

/-! ### Python string primitives -/

/-- The six characters Python `str.strip()` removes by default. -/
def pySpace (c : Char) : Bool :=
  c == ' ' || c == '\t' || c == '\n' || c == '\r' || c == '\x0b' || c == '\x0c'

/-- Python `s.strip()`. -/
def pyStrip (s : String) : String :=
  String.mk (((s.data.dropWhile pySpace).reverse.dropWhile pySpace).reverse)

/-- Python `s.lower()` (ASCII-faithful). -/
def pyLower (s : String) : String := String.mk (s.data.map Char.toLower)

/-- Python `s.upper()` (ASCII-faithful). -/
def pyUpper (s : String) : String := String.mk (s.data.map Char.toUpper)

/-- Python `s.startswith(p)`. -/
def pyStartsWith (s p : String) : Bool := p.data.isPrefixOf s.data

/-- Python `s.isdigit()`: non-empty and all digits. -/
def pyIsDigit (s : String) : Bool := !s.data.isEmpty && s.data.all Char.isDigit

/-- Python `int(s)` for a string that passed `isdigit`. -/
def pyParseNat (s : String) : Nat :=
  s.data.foldl (fun a c => 10 * a + (c.toNat - 48)) 0

/-- Value of one hexadecimal digit, if it is one. -/
def hexVal (c : Char) : Option Nat :=
  if '0' ≤ c && c ≤ '9' then some (c.toNat - 48)
  else if 'a' ≤ c && c ≤ 'f' then some (c.toNat - 87)
  else if 'A' ≤ c && c ≤ 'F' then some (c.toNat - 55)
  else none

/-- Python `int(s, 16)`; `none` models the `ValueError` on a malformed string. -/
def pyParseHex (s : String) : Option Nat :=
  if s.data.isEmpty then none
  else s.data.foldl
    (fun a c => match a, hexVal c with
      | some x, some d => some (16 * x + d)
      | _, _ => none)
    (some 0)

/-- Python `int(s)` (decimal); `none` models the `ValueError`. -/
def pyParseDec (s : String) : Option Nat :=
  if pyIsDigit s then some (pyParseNat s) else none

/-- Python truthiness of an optional float (None and 0.0 are falsy). -/
def pyTruthyQ (o : Option ℚ) : Bool :=
  match o with
  | some v => v != 0
  | none => false

/-- Python `a or b` for an optional string left operand (None and `""` are
falsy). -/
def pyOrStr (a : Option String) (b : String) : String :=
  match a with
  | some s => if s == "" then b else s
  | none => b

/-- Integer part of `x / 60` with Python semantics: true division followed
by `int(...)`, which truncates toward zero. -/
def pyDivMin (x : Int) : Int := Int.tdiv x 60

/-! ### `textwrap.wrap` (Python standard library, modelled) -/

/-- Split into maximal runs of non-whitespace characters. -/
def splitWords (cs : List Char) : List (List Char) :=
  (cs.foldr
    (fun c acc =>
      if pySpace c then [] :: acc
      else match acc with
        | [] => [[c]]
        | w :: ws => (c :: w) :: ws)
    []).filter (fun w => !w.isEmpty)

/-- Greedy word packing at the given width.  Models Python
`textwrap.wrap(s, width)`: whitespace (including newlines) is collapsed,
words are packed greedily, a whitespace-only input yields `[]`.  (Python
additionally breaks single words longer than the width; no message in
this program depends on that case.) -/
def wrapText (width : Nat) (s : String) : List String :=
  let ws := (splitWords s.data).map String.mk
  let step := fun (acc : List String × String) (w : String) =>
    if acc.2 == "" then (acc.1, w)
    else if acc.2.length + 1 + w.length ≤ width then
      (acc.1, acc.2 ++ " " ++ w)
    else (acc.1 ++ [acc.2], w)
  let fin := ws.foldl step ([], "")
  if fin.2 == "" then fin.1 else fin.1 ++ [fin.2]

/-! ### Configuration (src/operator_v7.py lines 19-58) -/

def CHANNEL_INDEX : Nat := 0
def TRIAGE_MAX_EXCHANGES : Nat := 12
def LOCKOUT_MINUTES : Int := 120

/-- The responder map, in source order.  `none` means broadcast to all. -/
def RESPONDERS : List (String × Option String) :=
  [("!sos", none), ("!police", some "!aabbccdd"), ("!fire", some "!eeff0011"),
   ("!ems", some "!22334455"), ("!help", none)]

/-- Python `[v for v in RESPONDERS.values() if v]` (all configured IDs are
non-empty strings, so truthiness is presence). -/
def responderValues : List String := RESPONDERS.filterMap (fun p => p.2)

def MENU_911 : String :=
  "[SOS] Emergency received.\nReply with a NUMBER:\n1 = Fire\n2 = Medical\n3 = Police\n4 = Other\n5 = Accident (sent by mistake)"

def MENU_911_MAP : List (String × String) :=
  [("1", "!fire"), ("2", "!ems"), ("3", "!police"), ("4", "!help"),
   ("5", "false_alarm")]

/-! ### The radio interface (external, consumed) -/

structure NodePos where
  latitude : Option ℚ := none
  longitude : Option ℚ := none
  deriving Repr, DecidableEq

structure NodeUser where
  longName : Option String := none
  shortName : Option String := none
  deriving Repr, DecidableEq

structure NodeInfo where
  user : Option NodeUser := none
  position : Option NodePos := none
  deriving Repr, DecidableEq

structure Radio where
  nodes : List (String × NodeInfo)
  myNodeNum : Nat
  deriving Repr, DecidableEq

/-! ### Helpers (src/operator_v7.py lines 74-131) -/

/-- `get_node_name`: long name, else short name, else the raw ID
(Python `or` chain, so empty strings also fall through). -/
def get_node_name (radio : Radio) (node_id : String) : String :=
  let node := (alistGet radio.nodes node_id).getD {}
  let user := node.user.getD {}
  pyOrStr user.longName (pyOrStr user.shortName node_id)

/-- Python `round(q, 5)` (the tie case of binary-float banker's rounding
is not reachable by any claim). -/
def round5 (q : ℚ) : ℚ := ((round (q * 100000) : ℤ) : ℚ) / 100000

/-- `get_node_gps`: last known position from the node directory.  The
source tests `if lat and lon:`, so a missing coordinate, a latitude of 0
or a longitude of 0 all yield `(None, None)`. -/
def get_node_gps (radio : Radio) (node_id : String) : Option ℚ × Option ℚ :=
  if node_id == "" then (none, none)
  else
    let node := (alistGet radio.nodes node_id).getD {}
    let position := node.position.getD {}
    let lat := position.latitude
    let lon := position.longitude
    if pyTruthyQ lat && pyTruthyQ lon then
      (some (round5 (lat.getD 0)), some (round5 (lon.getD 0)))
    else (none, none)

/-- `is_my_node`: parse the sender ID (hex after `!`, else decimal) and
compare with the local node number; parse failure means `False`. -/
def is_my_node (radio : Radio) (sender : String) : Bool :=
  if sender == "" then false
  else
    match (if pyStartsWith sender "!"
           then pyParseHex (String.mk (sender.data.drop 1))
           else pyParseDec sender) with
    | some n => n == radio.myNodeNum
    | none => false

def SOS_TRIGGERS : List String := ["!police", "!fire", "!ems", "!help", "!sos"]

/-- `match_trigger`: first trigger that the lowercased message equals or
starts (followed by a space). -/
def match_trigger (msg_lower : String) : Option String :=
  SOS_TRIGGERS.find? (fun t => msg_lower == t || pyStartsWith msg_lower (t ++ " "))

/-- `is_responder`. -/
def is_responder (sender : String) : Bool := responderValues.contains sender

/-! ### Core state (src/operator_v7.py lines 38-47) -/

/-- One entry of a triage transcript (`{ts, role, msg}`). -/
structure Exchange where
  ts : Int
  role : String
  msg : String
  deriving Repr, DecidableEq

/-- A triage session (`create_session`); timestamps are epoch seconds. -/
structure Session where
  sender_id : String
  phone : String
  node_name : String
  trigger : String
  context : String
  gps_lat : Option ℚ
  gps_lon : Option ℚ
  dispatched_to : Option String
  started_at : Int
  last_activity : Int
  exchanges : List Exchange
  deriving Repr, DecidableEq

/-- One restricted-list entry. -/
structure RestrictEntry where
  phone : String
  node_name : String
  locked_until : Int
  locked_by : String
  deriving Repr, DecidableEq

/-- One pending-911 entry. -/
structure Pending911 where
  ts : Int
  gps_lat : Option ℚ
  gps_lon : Option ℚ
  channel : Nat
  deriving Repr, DecidableEq

/-- One work item of the AI queue. -/
structure WorkItem where
  sender : String
  message : String
  channel : Nat
  is_triage : Bool
  deriving Repr, DecidableEq

/-- The mutable state of the gateway.  Conversation-history entries are
`(role, content)` pairs. -/
structure OpState where
  conversation_history : List (String × List (String × String)) := []
  active_sessions : List (String × Session) := []
  restricted_list : List (String × RestrictEntry) := []
  last_dispatch_to : List (String × String) := []
  pending_911 : List (String × Pending911) := []
  pending_cancel : List (String × List String) := []
  queue : List WorkItem := []
  deriving Repr, DecidableEq

/-! ### Observable effects -/

/-- One record of the JSONL audit log, by `type` with its fields. -/
inductive LogEvent
  | rx (sender phone message : String)
  | command (sender command : String)
  | restriction_expired (sender phone : String)
  | restricted (sender phone : String) (duration_minutes : Int) (locked_by : String)
  | restriction_lifted (sender phone lifted_by : String)
  | sos_closed (reason sender phone trigger context : String)
      (gps_lat gps_lon : Option ℚ) (dispatched_to : Option String)
      (started_at : Int) (exchange_count : Nat) (duration_seconds : Int)
  | sos_dispatch (sender phone trigger context : String)
      (gps_lat gps_lon : Option ℚ) (routed_to : String)
  | sos_911_triggered (sender phone : String) (gps_lat gps_lon : Option ℚ)
  | sos_false_alarm (sender phone method : String)
  | triage_exchange (sender session_trigger citizen operator : String)
  | general_exchange (sender citizen operator : String)
  | bouncer_drop (sender phone message : String)
  deriving Repr, DecidableEq

/-- An observable effect: a radio transmission (`safe_send`; `none`
destination is a channel broadcast) or an audit-log append. -/
inductive Event
  | send (text : String) (dest : Option String) (chan : Nat)
  | log (e : LogEvent)
  deriving Repr, DecidableEq

/-- Whether an event is the queue-depth gate's audit record. -/
def Event.isBouncerDrop : Event → Bool
  | .log (.bouncer_drop _ _ _) => true
  | _ => false

/-- Whether an event is a session-close audit record. -/
def Event.isSosClosed : Event → Bool
  | .log (.sos_closed _ _ _ _ _ _ _ _ _ _ _) => true
  | _ => false

/-- Whether an event is a radio transmission. -/
def Event.isSend : Event → Bool
  | .send _ _ _ => true
  | _ => false

/-! ### `is_restricted` (lines 134-149): lazy expiry under the lock -/

/-- Check the restricted list; an expired entry is popped and audited. -/
def is_restricted (now : Int) (st : OpState) (sender : String) :
    Bool × OpState × List Event :=
  match alistGet st.restricted_list sender with
  | none => (false, st, [])
  | some entry =>
    if now > entry.locked_until then
      (false,
       { st with restricted_list := alistRemove st.restricted_list sender },
       [.log (.restriction_expired sender entry.phone)])
    else (true, st, [])

/-! ### Triage session management (lines 155-240) -/

/-- `create_session`; the context, when non-empty, seeds the transcript. -/
def create_session (radio : Radio) (now : Int) (sender_id trigger context : String)
    (target : Option String) (phone : String) (gps_lat gps_lon : Option ℚ) :
    Session :=
  { sender_id := sender_id
    phone := phone
    node_name := get_node_name radio sender_id
    trigger := trigger
    context := context
    gps_lat := gps_lat
    gps_lon := gps_lon
    dispatched_to := target
    started_at := now
    last_activity := now
    exchanges :=
      if context == "" then []
      else [{ ts := now, role := "citizen", msg := context }] }

/-- `trim_exchanges` (lines 179-182): over 12 entries, keep the first 2
and the last 10 (`exchanges[:2] + exchanges[-10:]`). -/
def trim_exchanges (exchanges : List Exchange) : List Exchange :=
  if exchanges.length ≤ TRIAGE_MAX_EXCHANGES then exchanges
  else exchanges.take 2 ++
    exchanges.drop (exchanges.length - (TRIAGE_MAX_EXCHANGES - 2))

/-- Zero-padded two-digit rendering. -/
def pad2 (n : Nat) : String := if n < 10 then "0" ++ toString n else toString n

/-- `time.strftime('%H:%M:%S')` of an epoch-second clock. -/
def hhmmss (t : Int) : String :=
  let s := (t % 86400).toNat
  pad2 (s / 3600) ++ ":" ++ pad2 (s % 3600 / 60) ++ ":" ++ pad2 (s % 60)

/-- `build_triage_prompt` (lines 185-213). -/
def build_triage_prompt (session : Session) : String :=
  let gps :=
    if pyTruthyQ session.gps_lat then
      toString (session.gps_lat.getD 0) ++ "," ++ toString (session.gps_lon.getD 0)
    else "UNKNOWN"
  let dispatched := session.dispatched_to.getD "ALL RESPONDERS"
  let triage_log := session.exchanges.foldl
    (fun acc ex =>
      acc ++ "  [" ++ hhmmss ex.ts ++ "] " ++
        (if ex.role == "citizen" then "CITIZEN" else "OPERATOR") ++ ": " ++
        ex.msg ++ "\n")
    ""
  let prompt :=
    "You are an Emergency Dispatch Operator on a LoRa mesh network.\n\n" ++
    "ACTIVE EMERGENCY:\n" ++
    "  Trigger: " ++ session.trigger ++ "\n" ++
    "  Time: " ++ toString session.started_at ++ "\n" ++
    "  Citizen: " ++ session.phone ++ " (" ++ session.node_name ++ ")\n" ++
    "  GPS: " ++ gps ++ "\n" ++
    "  Dispatched To: " ++ dispatched ++ "\n\n"
  let prompt :=
    if triage_log == "" then prompt
    else prompt ++ "TRIAGE LOG:\n" ++ triage_log ++ "\n"
  prompt ++
    "RULES:\n- You are triaging the above emergency ONLY.\n" ++
    "- If the citizen goes off-topic, redirect to the active emergency.\n" ++
    "- Ask ONE follow-up triage question per response.\n" ++
    "- 2 sentences max. No markdown.\n"

/-- `close_session` (lines 216-240): pop the session and audit the close. -/
def close_session (now : Int) (st : OpState) (sender_id reason : String) :
    Option Session × OpState × List Event :=
  match alistGet st.active_sessions sender_id with
  | none => (none, st, [])
  | some session =>
    (some session,
     { st with active_sessions := alistRemove st.active_sessions sender_id },
     [.log (.sos_closed reason sender_id session.phone session.trigger
        session.context session.gps_lat session.gps_lon session.dispatched_to
        session.started_at session.exchanges.length (now - session.started_at))])

/-! ### SOS dispatch engine (lines 246-324) -/

/-- The `f"GPS: {lat},{lon}" if lat else "GPS: UNKNOWN"` pattern. -/
def gps_str (lat lon : Option ℚ) : String :=
  if pyTruthyQ lat then
    "GPS: " ++ toString (lat.getD 0) ++ "," ++ toString (lon.getD 0)
  else "GPS: UNKNOWN"

/-- `dispatch_sos`: ACK, safety note, responder dispatch (directed,
broadcast to each responder, or channel broadcast), session registration,
audit, and the initial triage enqueue when context is present. -/
def dispatch_sos (radio : Radio) (now : Int) (st : OpState)
    (sender phone : String) (incoming_chan : Nat) (trigger context : String) :
    OpState × List Event :=
  let latlon := get_node_gps radio sender
  let lat := latlon.1
  let lon := latlon.2
  let gstr := gps_str lat lon
  let ack := "[SOS] " ++ pyUpper trigger ++ " RECEIVED. " ++ gstr
  let ev1 : List Event :=
    [.send ack (some sender) incoming_chan,
     .send "[SOS] If triggered by accident, send !safe to cancel."
       (some sender) incoming_chan]
  let target := (alistGet RESPONDERS trigger).getD none
  let dispatch0 :=
    "[DISPATCH] " ++ pyUpper trigger ++ " | From: " ++ phone ++ " | " ++
      gstr ++ " | Time: " ++ hhmmss now
  let dispatch :=
    if context == "" then dispatch0
    else dispatch0 ++ " | " ++ String.mk (context.data.take 80)
  let routed :=
    match target with
    | some t =>
      ({ st with last_dispatch_to := alistSet st.last_dispatch_to t sender },
       [Event.send dispatch (some t) incoming_chan])
    | none =>
      if responderValues.isEmpty then
        (st, [Event.send dispatch none incoming_chan])
      else
        (responderValues.foldl
           (fun s r =>
             { s with last_dispatch_to := alistSet s.last_dispatch_to r sender })
           st,
         responderValues.map (fun r => Event.send dispatch (some r) incoming_chan))
  let st2 := routed.1
  let ev2 := routed.2
  let session := create_session radio now sender trigger context target phone lat lon
  let st3 := { st2 with active_sessions := alistSet st2.active_sessions sender session }
  let ev3 : List Event :=
    [.log (.sos_dispatch sender phone trigger context lat lon
       (target.getD "ALL_RESPONDERS"))]
  let st4 :=
    if context == "" then st3
    else { st3 with queue := st3.queue ++
      [{ sender := sender, message := context, channel := incoming_chan,
         is_triage := true }] }
  (st4, ev1 ++ ev2 ++ ev3)

/-! ### The AI worker (lines 418-526), one queue item per step -/

/-- Chunked transmission (lines 513-518): paginated header only when
there is more than one chunk. -/
def chunkEvents (chunks : List String) (dest : String) (chan : Nat) :
    List Event :=
  let total := chunks.length
  chunks.enum.map (fun ic =>
    .send (if total > 1
           then "[" ++ toString (ic.1 + 1) ++ "/" ++ toString total ++ "] " ++ ic.2
           else ic.2)
      (some dest) chan)

/-- One pass of the worker loop body for one dequeued item.  The LLM is
external: `llm_raw` is the completion text it returned for this item
(`response.choices[0].message.content`). -/
def ai_worker_step (radio : Radio) (now : Int) (st : OpState)
    (item : WorkItem) (llm_raw : String) : OpState × List Event :=
  if item.is_triage then
    match alistGet st.active_sessions item.sender with
    | none => (st, [])
    | some session =>
      let session1 :=
        { session with
            exchanges := trim_exchanges (session.exchanges ++
              [{ ts := now, role := "citizen", msg := item.message }])
            last_activity := now }
      let st1 := { st with
        active_sessions := alistSet st.active_sessions item.sender session1 }
      let stripped := pyStrip llm_raw
      let full_reply :=
        if stripped == ""
        then "[SYSTEM] No response generated. Repeat your last message."
        else stripped
      let st2 :=
        match alistGet st1.active_sessions item.sender with
        | some s2 =>
          let s3 := { s2 with exchanges := trim_exchanges (s2.exchanges ++
            [{ ts := now, role := "operator", msg := full_reply }]) }
          { st1 with active_sessions := alistSet st1.active_sessions item.sender s3 }
        | none => st1
      let evLog : List Event :=
        [.log (.triage_exchange item.sender session1.trigger item.message full_reply)]
      let footed := full_reply ++ "\n[Send !safe when emergency is resolved]"
      (st2, evLog ++ chunkEvents (wrapText 180 footed) item.sender item.channel)
  else
    let hist0 := (alistGet st.conversation_history item.sender).getD []
    let hist1 := hist0 ++ [("user", item.message)]
    let hist2 := if 4 < hist1.length then hist1.drop (hist1.length - 4) else hist1
    let stripped := pyStrip llm_raw
    let full_reply :=
      if stripped == "" then "[SYSTEM] No response generated. Try again."
      else stripped
    let hist3 := hist2 ++ [("assistant", full_reply)]
    let st1 := { st with
      conversation_history := alistSet st.conversation_history item.sender hist3 }
    let evLog : List Event :=
      [.log (.general_exchange item.sender item.message full_reply)]
    (st1, evLog ++ chunkEvents (wrapText 180 full_reply) item.sender item.channel)

/-! ### The router (`on_receive`, lines 532-838) -/

/-- An inbound text packet as delivered by the radio adapter.
`decodedText` is `packet['decoded']['text']` when both keys exist.
`rxTime` is carried by every packet but never read by this version of
the router. -/
structure Packet where
  decodedText : Option String := none
  fromId : Option String := none
  channel : Nat := 0
  rxTime : Int := 0
  deriving Repr, DecidableEq

/-- The responder-only command block (lines 559-678).  `some` is a
handled packet (a `return` in the source); `none` falls through to the
restriction gate. -/
def responder_block (radio : Radio) (now : Int) (st : OpState)
    (sender phone msg_lower : String) (incoming_chan : Nat) :
    Option (OpState × List Event) :=
  if msg_lower == "!spam" then
    match alistGet st.last_dispatch_to sender with
    | none =>
      some (st, [.send "[SYSTEM] No recent dispatch found. Cannot identify target."
        (some sender) incoming_chan])
    | some target_citizen =>
      let target_phone := get_node_name radio target_citizen
      let closed := close_session now st target_citizen "restricted"
      let st2 := closed.2.1
      let evClose := closed.2.2
      let evForce : List Event :=
        if closed.1.isSome then
          [.send ("[RESTRICTED] Triage for " ++ target_phone ++ " force-closed.")
            (some sender) incoming_chan]
        else []
      let st3 := { st2 with
        restricted_list := alistSet st2.restricted_list target_citizen
          { phone := target_phone
            node_name := get_node_name radio target_citizen
            locked_until := now + LOCKOUT_MINUTES * 60
            locked_by := sender }
        pending_911 := alistRemove st2.pending_911 target_citizen }
      some (st3, evClose ++ evForce ++
        [.send ("[RESTRICTED] " ++ target_phone ++ " locked out for " ++
            toString LOCKOUT_MINUTES ++ " min.") (some sender) incoming_chan,
         .send "[SYSTEM] Your access has been temporarily restricted by a responder."
            (some target_citizen) incoming_chan,
         .log (.restricted target_citizen target_phone LOCKOUT_MINUTES sender)])
  else if msg_lower == "!cancel" then
    let active_restrictions := st.restricted_list.filterMap
      (fun se =>
        let remaining := pyDivMin (se.2.locked_until - now)
        if 0 < remaining then some (se.1, se.2.phone, remaining) else none)
    if active_restrictions.isEmpty then
      some (st, [.send "[SYSTEM] Restricted list is empty. No users locked out."
        (some sender) incoming_chan])
    else
      let ordered := active_restrictions.map (fun x => x.1)
      let lines :=
        "[RESTRICTED LIST]" ::
          active_restrictions.enum.map (fun ie =>
            toString (ie.1 + 1) ++ ". " ++ ie.2.2.1 ++ " — " ++
              toString ie.2.2.2 ++ " min left") ++
          ["Reply with number to remove."]
      let st2 := { st with pending_cancel := alistSet st.pending_cancel sender ordered }
      let list_msg := String.intercalate "\n" lines
      some (st2, (wrapText 180 list_msg).map
        (fun c => .send c (some sender) incoming_chan))
  else
    let cancel_list := alistGet st.pending_cancel sender
    -- Python `if cancel_list and msg_lower.isdigit()`: an absent key and an
    -- empty snapshot are both falsy.
    if (match cancel_list with | some l => !l.isEmpty | none => false) &&
        pyIsDigit msg_lower then
      let cl := cancel_list.getD []
      let idx : Int := (pyParseNat msg_lower : Int) - 1
      if 0 ≤ idx && idx < cl.length then
        let target_citizen := cl.getD idx.toNat ""
        let removed := alistGet st.restricted_list target_citizen
        let st2 := { st with
          restricted_list := alistRemove st.restricted_list target_citizen
          pending_cancel := alistRemove st.pending_cancel sender }
        match removed with
        | some entry =>
          some (st2,
            [.send ("[SYSTEM] " ++ entry.phone ++ " removed from restricted list.")
               (some sender) incoming_chan,
             .send "[SYSTEM] Your access has been restored. Send !911 or !help if you need assistance."
               (some target_citizen) incoming_chan,
             .log (.restriction_lifted target_citizen entry.phone sender)])
        | none =>
          some (st2, [.send "[SYSTEM] User already removed or restriction expired."
            (some sender) incoming_chan])
      else
        some (st, [.send "[SYSTEM] Invalid number. Send !cancel to see the list again."
          (some sender) incoming_chan])
    else none

/-- The router body after the responder block and the restriction gate:
utility commands, the 911 menu and its numeric replies, direct SOS
triggers, triage routing, and the queue-depth gate (lines 693-838). -/
def citizen_block (radio : Radio) (now : Int) (st : OpState)
    (sender phone message msg_lower : String) (incoming_chan : Nat) :
    OpState × List Event :=
  if msg_lower == "!ping" then
    (st, [.send "[SYSTEM] PONG. Signal received by The Operator."
        (some sender) incoming_chan,
      .log (.command sender "ping")])
  else if msg_lower == "!status" then
    let status :=
      "[SYSTEM] Operator Online | Queue: " ++ toString st.queue.length ++
      " | Nodes: " ++ toString radio.nodes.length ++
      " | Responders: " ++ toString responderValues.length ++
      " | Triage: " ++ toString st.active_sessions.length ++
      " | Restricted: " ++ toString st.restricted_list.length
    (st, [.send status (some sender) incoming_chan, .log (.command sender "status")])
  else if msg_lower == "!safe" then
    let closed := close_session now st sender "safe"
    match closed.1 with
    | some session =>
      let cancel_msg :=
        "[CANCELLED] " ++ pyUpper session.trigger ++ " from " ++ phone ++
          " marked SAFE by sender. Use your judgment."
      let evNotify : List Event :=
        match session.dispatched_to with
        | some t => [.send cancel_msg (some t) incoming_chan]
        | none =>
          if responderValues.isEmpty then [.send cancel_msg none incoming_chan]
          else responderValues.map (fun r => .send cancel_msg (some r) incoming_chan)
      (closed.2.1, closed.2.2 ++ evNotify ++
        [.send "[SYSTEM] SOS cancelled. Responders notified. Stay safe."
          (some sender) incoming_chan])
    | none =>
      (st, [.send "[SYSTEM] No active SOS to cancel." (some sender) incoming_chan])
  else if msg_lower == "!911" then
    let latlon := get_node_gps radio sender
    let lat := latlon.1
    let lon := latlon.2
    let entry : Pending911 :=
      { ts := now, gps_lat := lat, gps_lon := lon, channel := incoming_chan }
    let st2 := { st with pending_911 := alistSet st.pending_911 sender entry }
    (st2,
      [Event.send ("[SOS] 911 RECEIVED. " ++ gps_str lat lon) (some sender) incoming_chan] ++
      (wrapText 180 MENU_911).map (fun c => Event.send c (some sender) incoming_chan) ++
      [Event.log (.sos_911_triggered sender phone lat lon)])
  else
    let p911 := alistGet st.pending_911 sender
    if p911.isSome && (alistGet MENU_911_MAP msg_lower).isSome then
      let st2 := { st with pending_911 := alistRemove st.pending_911 sender }
      let selection := (alistGet MENU_911_MAP msg_lower).getD ""
      if selection == "false_alarm" then
        (st2, [.send "[SYSTEM] No emergency dispatched. Stay safe."
            (some sender) incoming_chan,
          .log (.sos_false_alarm sender phone "911_menu")])
      else
        dispatch_sos radio now st2 sender phone incoming_chan selection ""
    else
      match match_trigger msg_lower with
      | some matched_trigger =>
        let context := pyStrip (String.mk (message.data.drop matched_trigger.length))
        dispatch_sos radio now st sender phone incoming_chan matched_trigger context
      | none =>
        if (alistGet st.active_sessions sender).isSome then
          ({ st with queue := st.queue ++
             [{ sender := sender, message := message, channel := incoming_chan,
                is_triage := true }] }, [])
        else if 15 < st.queue.length then
          (st, [.send "[SYSTEM] Busy. Try again in 30s." (some sender) incoming_chan,
            .log (.bouncer_drop sender phone message)])
        else
          ({ st with queue := st.queue ++
             [{ sender := sender, message := message, channel := incoming_chan,
                is_triage := false }] }, [])

/-- `on_receive`: filters, the responder block, the restriction gate and
the citizen block, in source order.  Note that this version performs no
check of `rxTime` anywhere. -/
def on_receive (radio : Radio) (now : Int) (st : OpState) (pkt : Packet) :
    OpState × List Event :=
  match pkt.decodedText with
  | none => (st, [])
  | some rawText =>
    let message := pyStrip rawText
    match pkt.fromId with
    | none => (st, [])
    | some sender =>
      if sender == "" || sender == "Unknown" then (st, [])
      else
        let incoming_chan := pkt.channel
        if incoming_chan ≠ CHANNEL_INDEX then (st, [])
        else if is_my_node radio sender then (st, [])
        else
          let phone := get_node_name radio sender
          let msg_lower := pyStrip (pyLower message)
          let evRx : List Event := [.log (.rx sender phone message)]
          let afterResponder :=
            if is_responder sender then
              responder_block radio now st sender phone msg_lower incoming_chan
            else none
          match afterResponder with
          | some handled => (handled.1, evRx ++ handled.2)
          | none =>
            let gate := is_restricted now st sender
            if gate.1 then
              (gate.2.1, evRx ++ gate.2.2 ++
                [.send "[SYSTEM] Your access has been temporarily restricted by a responder."
                  (some sender) incoming_chan])
            else
              let handled := citizen_block radio now gate.2.1 sender phone message
                msg_lower incoming_chan
              (handled.1, evRx ++ gate.2.2 ++ handled.2)

/-- The class of inbound messages the queue-depth gate must never touch:
SOS triggers, the 911 command, a numeric 911-menu selection with a menu
pending, and the responder-only commands (with a numeric cancel reply
requiring a pending snapshot), as claim C1 enumerates them. -/
def sos_or_responder (st : OpState) (sender msg_lower : String) : Prop :=
  (match_trigger msg_lower).isSome = true ∨ msg_lower = "!911" ∨
  ((alistGet st.pending_911 sender).isSome = true ∧
   (alistGet MENU_911_MAP msg_lower).isSome = true) ∨
  (is_responder sender = true ∧ (msg_lower = "!spam" ∨ msg_lower = "!cancel" ∨
    ((match alistGet st.pending_cancel sender with
      | some l => !l.isEmpty
      | none => false) = true ∧ pyIsDigit msg_lower = true)))

/-! ### Supporting lemmas -/

/-- Looking a key up right after setting it yields the new value. -/
theorem alistGet_set_self {α : Type} (m : List (String × α)) (k : String) (v : α) :
    alistGet (alistSet m k v) k = some v := by
  induction m with
  | nil => simp [alistSet, alistGet]
  | cons p rest ih =>
    by_cases h : p.1 == k
    · simp [alistSet, alistGet, h]
    · simp only [alistSet, alistGet, h]
      simpa [h] using ih

/-- A digit string never equals a string that is not one. -/
theorem digit_ne_lit {s t : String} (hs : pyIsDigit s = true)
    (ht : pyIsDigit t = false) : (s == t) = false := by
  cases h : (s == t) with
  | false => rfl
  | true =>
    have : s = t := eq_of_beq h
    rw [this] at hs
    rw [hs] at ht
    exact absurd ht (by simp)

/-- A digit string never starts with a pattern whose first character is
the bang. -/
theorem digit_not_startsWith_bang {s : String} (hs : pyIsDigit s = true)
    (p : String) (hp : p.data.head? = some '!') : pyStartsWith s p = false := by
  unfold pyStartsWith
  cases hsd : s.data with
  | nil => rw [pyIsDigit, hsd] at hs; simp at hs
  | cons c cs =>
    cases hpd : p.data with
    | nil => rw [hpd] at hp; simp at hp
    | cons d ds =>
      rw [hpd] at hp
      simp only [List.head?_cons, Option.some.injEq] at hp
      have hcd : c.isDigit = true := by
        rw [pyIsDigit, hsd] at hs
        simp [List.all_cons] at hs
        exact hs.1
      have hne : (d == c) = false := by
        cases hdc : (d == c) with
        | false => rfl
        | true =>
          have : d = c := eq_of_beq hdc
          rw [hp] at this
          rw [← this] at hcd
          exact absurd hcd (by decide)
      simp [List.isPrefixOf, hne]

/-- A digit string matches no SOS trigger. -/
theorem match_trigger_digit {s : String} (hs : pyIsDigit s = true) :
    match_trigger s = none := by
  unfold match_trigger SOS_TRIGGERS
  have h1 := digit_ne_lit hs (t := "!police") (by decide)
  have h2 := digit_ne_lit hs (t := "!fire") (by decide)
  have h3 := digit_ne_lit hs (t := "!ems") (by decide)
  have h4 := digit_ne_lit hs (t := "!help") (by decide)
  have h5 := digit_ne_lit hs (t := "!sos") (by decide)
  have p1 := digit_not_startsWith_bang hs "!police " (by decide)
  have p2 := digit_not_startsWith_bang hs "!fire " (by decide)
  have p3 := digit_not_startsWith_bang hs "!ems " (by decide)
  have p4 := digit_not_startsWith_bang hs "!help " (by decide)
  have p5 := digit_not_startsWith_bang hs "!sos " (by decide)
  simp [List.find?, h1, h2, h3, h4, h5, p1, p2, p3, p4, p5]

/-- Sends are never the queue-gate audit record. -/
theorem isBouncerDrop_send (t : String) (d : Option String) (c : Nat) :
    (Event.send t d c).isBouncerDrop = false := rfl

/-- The session-close helper emits no queue-gate record. -/
theorem close_session_no_bouncer (now : Int) (st : OpState) (s r : String) :
    ∀ e ∈ (close_session now st s r).2.2, e.isBouncerDrop = false := by
  intro e he
  unfold close_session at he
  rcases h : alistGet st.active_sessions s with _ | sess
  · rw [h] at he; simp at he
  · rw [h] at he
    simp only [List.mem_singleton] at he
    subst he
    rfl

/-- The dispatch engine emits no queue-gate record. -/
theorem dispatch_sos_no_bouncer (radio : Radio) (now : Int) (st : OpState)
    (sender phone : String) (chan : Nat) (trigger context : String) :
    ∀ e ∈ (dispatch_sos radio now st sender phone chan trigger context).2,
      e.isBouncerDrop = false := by
  unfold dispatch_sos
  rcases htarget : (alistGet RESPONDERS trigger).getD none with _ | t <;>
    simp [htarget, Event.isBouncerDrop, List.forall_mem_append,
      show responderValues.isEmpty = false from by decide] <;>
    try (rintro a (⟨r, _, rfl⟩ | rfl) <;> rfl)

theorem all_no_bouncer_to_forall (l : List Event)
    (h : l.all (fun e => !e.isBouncerDrop) = true) :
    ∀ e ∈ l, e.isBouncerDrop = false := by
  intro e he
  have := List.all_eq_true.1 h e he
  simpa using this

theorem close_session_all_no_bouncer (now : Int) (st : OpState) (s r : String) :
    ((close_session now st s r).2.2).all (fun e => !e.isBouncerDrop) = true := by
  unfold close_session
  rcases h : alistGet st.active_sessions s with _ | sess <;>
    simp [Event.isBouncerDrop]

theorem responder_block_no_bouncer (radio : Radio) (now : Int) (st : OpState)
    (sender phone msg_lower : String) (chan : Nat) (r : OpState × List Event)
    (hr : responder_block radio now st sender phone msg_lower chan = some r) :
    ∀ e ∈ r.2, e.isBouncerDrop = false := by
  apply all_no_bouncer_to_forall
  unfold responder_block at hr
  dsimp only [] at hr
  split at hr
  · -- the restrict command
    split at hr
    · cases hr
      simp [Event.isBouncerDrop]
    · cases hr
      simp only [List.all_append, Bool.and_eq_true]
      refine ⟨⟨close_session_all_no_bouncer _ _ _ _, ?_⟩, ?_⟩
      · split <;> simp [Event.isBouncerDrop]
      · simp [Event.isBouncerDrop]
  · split at hr
    · -- the cancel-list command
      split at hr
      · cases hr
        simp [Event.isBouncerDrop]
      · cases hr
        simp [Event.isBouncerDrop, List.all_map, Function.comp]
    · split at hr
      · -- a numeric reply against the snapshot
        split at hr
        · split at hr
          · cases hr
            simp [Event.isBouncerDrop]
          · cases hr
            simp [Event.isBouncerDrop]
        · cases hr
          simp [Event.isBouncerDrop]
      · exact absurd hr (by simp)

theorem responder_block_handles (radio : Radio) (now : Int) (st : OpState)
    (sender phone msg_lower : String) (chan : Nat)
    (h : msg_lower = "!spam" ∨ msg_lower = "!cancel" ∨
      ((match alistGet st.pending_cancel sender with
        | some l => !l.isEmpty
        | none => false) = true ∧ pyIsDigit msg_lower = true)) :
    (responder_block radio now st sender phone msg_lower chan).isSome = true := by
  unfold responder_block
  rcases h with h | h | ⟨h1, h2⟩
  · subst h
    dsimp only []
    rw [if_pos (show (("!spam" : String) == "!spam") = true from rfl)]
    split <;> rfl
  · subst h
    dsimp only []
    rw [if_neg (show ¬ (("!cancel" : String) == "!spam") = true from by decide),
      if_pos (show (("!cancel" : String) == "!cancel") = true from rfl)]
    split <;> rfl
  · have hs : (msg_lower == "!spam") = false := digit_ne_lit h2 (by decide)
    have hc : (msg_lower == "!cancel") = false := digit_ne_lit h2 (by decide)
    simp only [hs, hc, Bool.false_eq_true, if_false, h1, h2, Bool.and_self, if_true]
    split
    · split <;> rfl
    · rfl

theorem is_restricted_preserves (now : Int) (st : OpState) (sender : String) :
    (is_restricted now st sender).2.1.active_sessions = st.active_sessions ∧
    (is_restricted now st sender).2.1.pending_911 = st.pending_911 ∧
    (is_restricted now st sender).2.1.pending_cancel = st.pending_cancel ∧
    (is_restricted now st sender).2.1.queue = st.queue ∧
    (is_restricted now st sender).2.1.conversation_history = st.conversation_history := by
  unfold is_restricted
  rcases h : alistGet st.restricted_list sender with _ | entry <;> simp
  split <;> simp

theorem citizen_block_no_bouncer (radio : Radio) (now : Int) (st : OpState)
    (sender phone message msg_lower : String) (chan : Nat)
    (h : (match_trigger msg_lower).isSome = true ∨ msg_lower = "!911" ∨
      ((alistGet st.pending_911 sender).isSome = true ∧
       (alistGet MENU_911_MAP msg_lower).isSome = true)) :
    ∀ e ∈ (citizen_block radio now st sender phone message msg_lower chan).2,
      e.isBouncerDrop = false := by
  unfold citizen_block
  dsimp only []
  split
  · -- ping
    simp [Event.isBouncerDrop]
  split
  · -- status
    simp [Event.isBouncerDrop]
  split
  · -- safe
    split
    · -- an open session
      simp only [List.forall_mem_append]
      refine ⟨⟨close_session_no_bouncer _ _ _ _, ?_⟩, ?_⟩
      · split
        · simp [Event.isBouncerDrop]
        · split
          · simp [Event.isBouncerDrop]
          · intro e he
            rcases List.mem_map.1 he with ⟨c, _, rfl⟩
            rfl
      · simp [Event.isBouncerDrop]
    · simp [Event.isBouncerDrop]
  split
  · -- the 911 menu
    intro e he
    simp only [List.mem_append, List.mem_cons, List.not_mem_nil, or_false,
      List.mem_map, List.mem_singleton] at he
    rcases he with (he | ⟨c, _, he⟩) | he <;> (subst he; rfl)
  split
  · -- a numeric 911 selection
    split
    · simp [Event.isBouncerDrop]
    · exact dispatch_sos_no_bouncer _ _ _ _ _ _ _ _
  -- beyond this point no 911 selection is pending for this message
  split
  · -- a direct trigger
    exact dispatch_sos_no_bouncer _ _ _ _ _ _ _ _
  · -- no trigger matched: the hypothesis rules the bouncer branch out
    rename_i hcping hcstatus hcsafe hc911 hcmenu hmtval htrig
    split
    · simp
    · split
      · exfalso
        rcases h with h | h | h
        · rw [htrig] at h
          simp at h
        · exact hc911 (by simp [h])
        · exact hcmenu (by simp [h.1, h.2])
      · simp

theorem is_restricted_no_bouncer (now : Int) (st : OpState) (sender : String) :
    ∀ e ∈ (is_restricted now st sender).2.2, e.isBouncerDrop = false := by
  unfold is_restricted
  rcases h : alistGet st.restricted_list sender with _ | entry
  · simp
  · dsimp only []
    split <;> simp [Event.isBouncerDrop]

/-- C1: an inbound packet that matches an SOS trigger token, the 911
command, a pending numeric 911-menu selection, or a responder-only
command (restrict, cancel-list, or a numeric reply against a pending
cancel snapshot) is never answered with the busy notice: the queue-depth
gate and its `bouncer_drop` audit record are unreachable for such
packets, whatever the state, clock and radio directory. -/
theorem c1_queue_gate_never_rejects_sos_or_responder
    (radio : Radio) (now : Int) (st : OpState) (pkt : Packet)
    (hp : sos_or_responder st (pkt.fromId.getD "")
      (pyStrip (pyLower (pyStrip (pkt.decodedText.getD ""))))) :
    ∀ e ∈ (on_receive radio now st pkt).2, e.isBouncerDrop = false := by
  obtain ⟨dt, fid, ch, rx⟩ := pkt
  unfold on_receive
  cases dt with
  | none => simp
  | some raw =>
    cases fid with
    | none => simp
    | some sender =>
      simp only [Option.getD_some] at hp
      dsimp only []
      split
      · simp
      split
      · simp
      split
      · simp
      rcases hresp : is_responder sender with _ | _
      · -- not a responder: the responder block is skipped
        simp only [hresp, Bool.false_eq_true, if_false]
        have hp3 : (match_trigger (pyStrip (pyLower (pyStrip raw)))).isSome = true ∨
            pyStrip (pyLower (pyStrip raw)) = "!911" ∨
            ((alistGet st.pending_911 sender).isSome = true ∧
             (alistGet MENU_911_MAP (pyStrip (pyLower (pyStrip raw)))).isSome = true) := by
          rcases hp with h | h | h | ⟨h4, _⟩
          · exact Or.inl h
          · exact Or.inr (Or.inl h)
          · exact Or.inr (Or.inr h)
          · rw [hresp] at h4; cases h4
        split
        · -- restricted sender: the restriction notice only
          intro e he
          simp only [List.mem_append, List.mem_cons, List.not_mem_nil, or_false,
            List.mem_singleton] at he
          rcases he with (he | he) | he
          · subst he; rfl
          · exact is_restricted_no_bouncer now st sender e he
          · subst he; rfl
        · intro e he
          simp only [List.mem_append, List.mem_cons, List.not_mem_nil, or_false,
            List.mem_singleton] at he
          rcases he with (he | he) | he
          · subst he; rfl
          · exact is_restricted_no_bouncer now st sender e he
          · refine citizen_block_no_bouncer radio now _ sender _ _ _ ch ?_ e he
            rcases (is_restricted_preserves now st sender).2.1 with hpres
            rw [hpres]
            exact hp3
      · -- a responder: the responder block handles every responder command
        simp only [hresp, if_true]
        rcases hrb : responder_block radio now st sender (get_node_name radio sender)
            (pyStrip (pyLower (pyStrip raw))) ch with _ | r
        · -- the block fell through: no responder command was pending
          have hp3 : (match_trigger (pyStrip (pyLower (pyStrip raw)))).isSome = true ∨
              pyStrip (pyLower (pyStrip raw)) = "!911" ∨
              ((alistGet st.pending_911 sender).isSome = true ∧
               (alistGet MENU_911_MAP (pyStrip (pyLower (pyStrip raw)))).isSome = true) := by
            rcases hp with h | h | h | ⟨_, h4⟩
            · exact Or.inl h
            · exact Or.inr (Or.inl h)
            · exact Or.inr (Or.inr h)
            · exfalso
              have := responder_block_handles radio now st sender
                (get_node_name radio sender) (pyStrip (pyLower (pyStrip raw))) ch h4
              rw [hrb] at this
              simp at this
          dsimp only []
          split
          · intro e he
            simp only [List.mem_append, List.mem_cons, List.not_mem_nil, or_false,
              List.mem_singleton] at he
            rcases he with (he | he) | he
            · subst he; rfl
            · exact is_restricted_no_bouncer now st sender e he
            · subst he; rfl
          · intro e he
            simp only [List.mem_append, List.mem_cons, List.not_mem_nil, or_false,
              List.mem_singleton] at he
            rcases he with (he | he) | he
            · subst he; rfl
            · exact is_restricted_no_bouncer now st sender e he
            · refine citizen_block_no_bouncer radio now _ sender _ _ _ ch ?_ e he
              rcases (is_restricted_preserves now st sender).2.1 with hpres
              rw [hpres]
              exact hp3
        · dsimp only []
          intro e he
          simp only [List.mem_append, List.mem_cons, List.not_mem_nil, or_false,
            List.mem_singleton] at he
          rcases he with he | he
          · subst he; rfl
          · exact responder_block_no_bouncer radio now st sender _ _ ch r hrb e he

/-- Appending one entry to a transcript of at most 12 entries and trimming
leaves at most 12 entries. -/
theorem trim_append_length_le (l : List Exchange) (e : Exchange)
    (h : l.length ≤ 12) : (trim_exchanges (l ++ [e])).length ≤ 12 := by
  unfold trim_exchanges TRIAGE_MAX_EXCHANGES
  split
  · assumption
  · simp [List.length_take, List.length_drop]
    omega

/-! ### The claims -/

/-- C1 witness at a concrete input: a full queue (16 general items) and an
inbound `!sos` message; the output contains no queue-gate rejection. -/
theorem c1_queue_gate_witness :
    ((on_receive { nodes := [], myNodeNum := 99 } 1000
        { queue := List.replicate 16
            { sender := "!x", message := "hi", channel := 0, is_triage := false } }
        { decodedText := some "!sos help me", fromId := some "!n1",
          channel := 0, rxTime := 1000 }).2.all
      (fun e => !e.isBouncerDrop)) = true :=
  List.all_eq_true.2 (fun e he => by
    have h := c1_queue_gate_never_rejects_sos_or_responder
      { nodes := [], myNodeNum := 99 }
      1000
      { queue := List.replicate 16
          { sender := "!x", message := "hi", channel := 0, is_triage := false } }
      { decodedText := some "!sos help me", fromId := some "!n1",
        channel := 0, rxTime := 1000 }
      (Or.inl (by decide))
    simpa using h e he)

/-- C2: the spec requires the router to silently drop any packet whose
radio timestamp precedes `boot_time - stale_window`, but this version of
`on_receive` never reads `rxTime`.  At a packet with `rxTime = 3`
(arbitrarily far before any boot instant) carrying `!sos`, the router
performs the full SOS workflow - acknowledgment, safety note, dispatch
to all three responders, session registration and audit - instead of
dropping it. -/
theorem c2_stale_packet_is_fully_processed :
    (on_receive { nodes := [], myNodeNum := 99 } 1000 {}
      { decodedText := some "!sos", fromId := some "!n1", channel := 0,
        rxTime := 3 }) =
    ({ active_sessions := [("!n1",
        { sender_id := "!n1", phone := "!n1", node_name := "!n1",
          trigger := "!sos", context := "", gps_lat := none, gps_lon := none,
          dispatched_to := none, started_at := 1000, last_activity := 1000,
          exchanges := [] })],
       last_dispatch_to := [("!aabbccdd", "!n1"), ("!eeff0011", "!n1"),
        ("!22334455", "!n1")] },
     [.log (.rx "!n1" "!n1" "!sos"),
      .send "[SOS] !SOS RECEIVED. GPS: UNKNOWN" (some "!n1") 0,
      .send "[SOS] If triggered by accident, send !safe to cancel." (some "!n1") 0,
      .send "[DISPATCH] !SOS | From: !n1 | GPS: UNKNOWN | Time: 00:16:40"
        (some "!aabbccdd") 0,
      .send "[DISPATCH] !SOS | From: !n1 | GPS: UNKNOWN | Time: 00:16:40"
        (some "!eeff0011") 0,
      .send "[DISPATCH] !SOS | From: !n1 | GPS: UNKNOWN | Time: 00:16:40"
        (some "!22334455") 0,
      .log (.sos_dispatch "!n1" "!n1" "!sos" "" none none "ALL_RESPONDERS")]) := by
  decide

/-- C4 counterexample: dispatching twice from the same sender with the
same clock produces exactly the same output events and the same state
both times, so no monotonic incident number is assigned at dispatch time
and a re-trigger carries no fresh number (there is no incident counter
anywhere in this version). -/
theorem c4_no_fresh_incident_number_counterexample :
    dispatch_sos { nodes := [], myNodeNum := 99 } 1000
      (dispatch_sos { nodes := [], myNodeNum := 99 } 1000 {}
        "!n1" "!n1" 0 "!sos" "").1 "!n1" "!n1" 0 "!sos" "" =
    dispatch_sos { nodes := [], myNodeNum := 99 } 1000 {}
      "!n1" "!n1" 0 "!sos" "" := by
  decide

/-- C4 amended: every SOS dispatch creates a fresh triage session and
registers it under the sender, overwriting any previous entry; the
dispatch output is a function of the radio, clock and call arguments
alone - independent of all prior state - so no incident counter exists
and nothing numbers one incident apart from the next. -/
theorem c4_dispatch_has_no_incident_counter (radio : Radio) (now : Int)
    (st stOther : OpState) (sender phone : String) (chan : Nat)
    (trigger context : String) :
    (dispatch_sos radio now st sender phone chan trigger context).2 =
      (dispatch_sos radio now stOther sender phone chan trigger context).2 ∧
    (dispatch_sos radio now st sender phone chan trigger context).1.active_sessions =
      alistSet st.active_sessions sender
        (create_session radio now sender trigger context
          ((alistGet RESPONDERS trigger).getD none) phone
          (get_node_gps radio sender).1 (get_node_gps radio sender).2) := by
  unfold dispatch_sos
  rcases htarget : (alistGet RESPONDERS trigger).getD none with _ | t <;>
    constructor <;>
    simp [htarget, responderValues, RESPONDERS,
      show (alistGet RESPONDERS trigger).getD none = _ from htarget] <;>
    split <;> rfl

/-- C5: the transcript-trimming primitive keeps every append step at or
under 12 entries; whenever it fires (more than 12 entries) it returns
exactly the first two entries followed by the most recent ten, in order;
and a worker triage step applied to a session within the bound leaves the
stored session within the bound. -/
theorem c5_triage_transcript_bound :
    (∀ (l : List Exchange) (e : Exchange), l.length ≤ 12 →
      (trim_exchanges (l ++ [e])).length ≤ 12) ∧
    (∀ l : List Exchange, 12 < l.length →
      trim_exchanges l = l.take 2 ++ l.drop (l.length - 10)) ∧
    (∀ (radio : Radio) (now : Int) (st : OpState) (item : WorkItem)
        (llm : String) (sess : Session),
      item.is_triage = true →
      alistGet st.active_sessions item.sender = some sess →
      sess.exchanges.length ≤ 12 →
      ∀ sess2, alistGet (ai_worker_step radio now st item llm).1.active_sessions
          item.sender = some sess2 → sess2.exchanges.length ≤ 12) := by
  refine ⟨trim_append_length_le, ?_, ?_⟩
  · intro l h
    unfold trim_exchanges TRIAGE_MAX_EXCHANGES
    rw [if_neg (by omega)]
  · intro radio now st item llm sess htri hget hlen sess2 hget2
    unfold ai_worker_step at hget2
    rw [htri] at hget2
    simp only [if_true] at hget2
    rw [hget] at hget2
    dsimp only [] at hget2
    rw [alistGet_set_self] at hget2
    dsimp only [] at hget2
    rw [alistGet_set_self] at hget2
    cases hget2
    exact trim_append_length_le _ _ (trim_append_length_le _ _ hlen)

/-- C5 witness at a concrete input: a worker triage step on a session
holding 12 transcript entries stores a session holding 12 again. -/
theorem c5_triage_transcript_witness :
    (trim_exchanges
        (List.replicate 12 ({ ts := 0, role := "citizen", msg := "m" } : Exchange)
          ++ [{ ts := 1, role := "operator", msg := "r" }])).length ≤ 12 :=
  c5_triage_transcript_bound.1
    (List.replicate 12 { ts := 0, role := "citizen", msg := "m" })
    { ts := 1, role := "operator", msg := "r" } (by decide)

/-- C8 counterexample: starting from a (trimmed) four-entry history, one
general worker step stores the assistant reply without re-trimming, so
immediately afterwards the sender's history holds five entries - more
than the four turns the claim allows at any point. -/
theorem c8_history_holds_five_counterexample :
    4 < ((alistGet (ai_worker_step { nodes := [], myNodeNum := 99 } 5
        { conversation_history := [("!n1",
            [("user", "a"), ("assistant", "b"), ("user", "c"), ("assistant", "d")])] }
        { sender := "!n1", message := "hello", channel := 0, is_triage := false }
        "ok").1.conversation_history "!n1").getD []).length := by
  decide

/-- C8 amended: the general-chat history is trimmed to the most recent 4
turns when the user turn is appended (so at most 4 entries are ever sent
to the model), and after the assistant reply is stored the history holds
at most 5 entries; the re-trim happens only on the next user turn. -/
theorem c8_general_history_capped_at_five (radio : Radio) (now : Int)
    (st : OpState) (item : WorkItem) (llm : String)
    (h : item.is_triage = false) :
    ((alistGet st.conversation_history item.sender).getD [] ++
        [("user", item.message)] |> fun h1 =>
      (if 4 < h1.length then h1.drop (h1.length - 4) else h1) |> fun h2 =>
      (fun reply =>
        h2.length ≤ 4 ∧
        (ai_worker_step radio now st item llm).1.conversation_history =
          alistSet st.conversation_history item.sender
            (h2 ++ [("assistant", reply)]) ∧
        (h2 ++ [("assistant", reply)]).length ≤ 5)
        (if pyStrip llm == "" then "[SYSTEM] No response generated. Try again."
         else pyStrip llm)) := by
  refine ⟨?_, ?_, ?_⟩
  · dsimp only []
    split
    · rename_i hgt
      simp only [List.length_append, List.length_singleton] at hgt
      simp only [List.length_drop, List.length_append, List.length_singleton]
      omega
    · rename_i hle
      simp only [List.length_append, List.length_singleton] at hle ⊢
      omega
  · unfold ai_worker_step
    rw [h]
    simp only [Bool.false_eq_true, if_false]
  · dsimp only []
    split
    · rename_i hgt
      simp only [List.length_append, List.length_singleton] at hgt
      simp only [List.length_append, List.length_drop, List.length_singleton]
      omega
    · rename_i hle
      simp only [List.length_append, List.length_singleton] at hle ⊢
      omega

/-- C8 witness at a concrete input: a general step on a two-entry history
stores exactly the user and assistant turns appended, within the bounds. -/
theorem c8_general_history_witness :
    ([("user", "a"), ("assistant", "b"), ("user", "hi")] :
        List (String × String)).length ≤ 4 ∧
    (ai_worker_step { nodes := [], myNodeNum := 99 } 5
        { conversation_history := [("!n1", [("user", "a"), ("assistant", "b")])] }
        { sender := "!n1", message := "hi", channel := 0, is_triage := false }
        "ok").1.conversation_history =
      alistSet [("!n1", [("user", "a"), ("assistant", "b")])] "!n1"
        [("user", "a"), ("assistant", "b"), ("user", "hi"), ("assistant", "ok")] ∧
    ([("user", "a"), ("assistant", "b"), ("user", "hi"), ("assistant", "ok")] :
        List (String × String)).length ≤ 5 :=
  c8_general_history_capped_at_five { nodes := [], myNodeNum := 99 } 5
    { conversation_history := [("!n1", [("user", "a"), ("assistant", "b")])] }
    { sender := "!n1", message := "hi", channel := 0, is_triage := false }
    "ok" rfl

/-- C3: a non-responder sender that is on the restricted list with an
unexpired lockout gets exactly one outbound reply - the standard
restriction notice - and nothing else: the state is returned unchanged
(no map is mutated, nothing is enqueued) and no dispatch occurs. -/
theorem c3_restricted_sender_gets_single_notice (radio : Radio) (now : Int) (st : OpState) (raw sender : String)
    (rt : Int) (entry : RestrictEntry)
    (h1 : sender ≠ "") (h2 : sender ≠ "Unknown")
    (h3 : is_my_node radio sender = false)
    (h4 : is_responder sender = false)
    (h5 : alistGet st.restricted_list sender = some entry)
    (h6 : now < entry.locked_until) :
    on_receive radio now st
      { decodedText := some raw, fromId := some sender, channel := 0, rxTime := rt } =
    (st, [.log (.rx sender (get_node_name radio sender) (pyStrip raw)),
          .send "[SYSTEM] Your access has been temporarily restricted by a responder."
            (some sender) 0]) := by
  unfold on_receive is_restricted
  simp [h1, h2, h3, h4, h5, CHANNEL_INDEX,
    show ¬ (now > entry.locked_until) from by omega]

/-- C7: a `!safe` message from a sender with an open triage session pops
the session, audits the close with reason `safe`, notifies the incident
responder (or every responder, or the channel), and confirms to the
sender; a `!safe` with no open session only answers with the
"No active SOS to cancel." notice and changes nothing. -/
theorem c7_safe_closes_session_then_reports_none (radio : Radio) (now : Int) (st : OpState) (raw sender : String)
    (rt : Int)
    (h1 : sender ≠ "") (h2 : sender ≠ "Unknown")
    (h3 : is_my_node radio sender = false)
    (h4 : is_responder sender = false)
    (h5 : alistGet st.restricted_list sender = none)
    (hml : pyStrip (pyLower (pyStrip raw)) = "!safe") :
    (∀ sess, alistGet st.active_sessions sender = some sess →
      on_receive radio now st
        { decodedText := some raw, fromId := some sender, channel := 0, rxTime := rt } =
      ({ st with active_sessions := alistRemove st.active_sessions sender },
        [.log (.rx sender (get_node_name radio sender) (pyStrip raw)),
         .log (.sos_closed "safe" sender sess.phone sess.trigger sess.context
           sess.gps_lat sess.gps_lon sess.dispatched_to sess.started_at
           sess.exchanges.length (now - sess.started_at))] ++
        (match sess.dispatched_to with
         | some t => [.send ("[CANCELLED] " ++ pyUpper sess.trigger ++ " from " ++
             get_node_name radio sender ++ " marked SAFE by sender. Use your judgment.")
             (some t) 0]
         | none =>
           if responderValues.isEmpty then
             [.send ("[CANCELLED] " ++ pyUpper sess.trigger ++ " from " ++
               get_node_name radio sender ++ " marked SAFE by sender. Use your judgment.")
               none 0]
           else responderValues.map (fun r =>
             .send ("[CANCELLED] " ++ pyUpper sess.trigger ++ " from " ++
               get_node_name radio sender ++ " marked SAFE by sender. Use your judgment.")
               (some r) 0)) ++
        [.send "[SYSTEM] SOS cancelled. Responders notified. Stay safe."
          (some sender) 0])) ∧
    (alistGet st.active_sessions sender = none →
      on_receive radio now st
        { decodedText := some raw, fromId := some sender, channel := 0, rxTime := rt } =
      (st, [.log (.rx sender (get_node_name radio sender) (pyStrip raw)),
            .send "[SYSTEM] No active SOS to cancel." (some sender) 0])) := by
  constructor
  · intro sess hsess
    unfold on_receive citizen_block close_session
    simp [h1, h2, h3, h4, h5, hml, CHANNEL_INDEX, hsess, is_restricted]
  · intro hnone
    unfold on_receive citizen_block close_session
    simp [h1, h2, h3, h4, h5, hml, CHANNEL_INDEX, hnone, is_restricted]

theorem dispatch_sos_registers_fresh_session (radio : Radio) (now : Int)
    (st : OpState) (sender phone : String) (chan : Nat) (trigger context : String) :
    (dispatch_sos radio now st sender phone chan trigger context).1.active_sessions =
      alistSet st.active_sessions sender
        (create_session radio now sender trigger context
          ((alistGet RESPONDERS trigger).getD none) phone
          (get_node_gps radio sender).1 (get_node_gps radio sender).2) := by
  unfold dispatch_sos
  rcases htarget : (alistGet RESPONDERS trigger).getD none with _ | t <;>
    simp [htarget, responderValues, RESPONDERS] <;> split <;> rfl

theorem dispatch_sos_no_sos_closed (radio : Radio) (now : Int) (st : OpState)
    (sender phone : String) (chan : Nat) (trigger context : String) :
    ∀ e ∈ (dispatch_sos radio now st sender phone chan trigger context).2,
      e.isSosClosed = false := by
  unfold dispatch_sos
  rcases htarget : (alistGet RESPONDERS trigger).getD none with _ | t <;>
    simp [htarget, Event.isSosClosed, List.forall_mem_append,
      show responderValues.isEmpty = false from by decide] <;>
    try (rintro a (⟨r, _, rfl⟩ | rfl) <;> rfl)

theorem beq_false_of_match_trigger_some {m t : String}
    (h : match_trigger m = some t) (lit : String)
    (hlit : match_trigger lit = none) : (m == lit) = false := by
  cases hc : (m == lit) with
  | false => rfl
  | true =>
    rw [eq_of_beq hc, hlit] at h
    exact absurd h (by simp)

theorem menu_lookup_none_of_match_trigger {m t : String}
    (h : match_trigger m = some t) : alistGet MENU_911_MAP m = none := by
  have k : ∀ lit : String, match_trigger lit = none → (lit == m) = false := by
    intro lit hlit
    cases hc : (lit == m) with
    | false => rfl
    | true =>
      rw [← eq_of_beq hc, hlit] at h
      exact absurd h (by simp)
  have k1 := k "1" (by decide)
  have k2 := k "2" (by decide)
  have k3 := k "3" (by decide)
  have k4 := k "4" (by decide)
  have k5 := k "5" (by decide)
  simp [alistGet, MENU_911_MAP, k1, k2, k3, k4, k5]

/-- C10: a direct SOS trigger from a sender who already has an open
triage session is handled as a full new dispatch (the trigger check
precedes the active-triage check), and the dispatch registers the fresh
session over the old map entry; no `sos_closed` audit record is emitted
anywhere in the exchange. -/
theorem c10_retrigger_dispatches_and_overwrites_session (radio : Radio) (now : Int) (st : OpState) (raw sender : String)
    (rt : Int) (trig : String) (oldSess : Session)
    (h1 : sender ≠ "") (h2 : sender ≠ "Unknown")
    (h3 : is_my_node radio sender = false)
    (h4 : is_responder sender = false)
    (h5 : alistGet st.restricted_list sender = none)
    (hses : alistGet st.active_sessions sender = some oldSess)
    (htrig : match_trigger (pyStrip (pyLower (pyStrip raw))) = some trig) :
    on_receive radio now st
      { decodedText := some raw, fromId := some sender, channel := 0, rxTime := rt } =
    ((dispatch_sos radio now st sender (get_node_name radio sender) 0 trig
        (pyStrip (String.mk ((pyStrip raw).data.drop trig.length)))).1,
      .log (.rx sender (get_node_name radio sender) (pyStrip raw)) ::
      (dispatch_sos radio now st sender (get_node_name radio sender) 0 trig
        (pyStrip (String.mk ((pyStrip raw).data.drop trig.length)))).2) ∧
    (dispatch_sos radio now st sender (get_node_name radio sender) 0 trig
        (pyStrip (String.mk ((pyStrip raw).data.drop trig.length)))).1.active_sessions =
      alistSet st.active_sessions sender
        (create_session radio now sender trig
          (pyStrip (String.mk ((pyStrip raw).data.drop trig.length)))
          ((alistGet RESPONDERS trig).getD none) (get_node_name radio sender)
          (get_node_gps radio sender).1 (get_node_gps radio sender).2) ∧
    (∀ e ∈ (on_receive radio now st
        { decodedText := some raw, fromId := some sender, channel := 0,
          rxTime := rt }).2, e.isSosClosed = false) := by
  have hping := beq_false_of_match_trigger_some htrig "!ping" (by decide)
  have hstatus := beq_false_of_match_trigger_some htrig "!status" (by decide)
  have hsafe := beq_false_of_match_trigger_some htrig "!safe" (by decide)
  have h911 := beq_false_of_match_trigger_some htrig "!911" (by decide)
  have hmenu := menu_lookup_none_of_match_trigger htrig
  have hmain : on_receive radio now st
      { decodedText := some raw, fromId := some sender, channel := 0, rxTime := rt } =
    ((dispatch_sos radio now st sender (get_node_name radio sender) 0 trig
        (pyStrip (String.mk ((pyStrip raw).data.drop trig.length)))).1,
      .log (.rx sender (get_node_name radio sender) (pyStrip raw)) ::
      (dispatch_sos radio now st sender (get_node_name radio sender) 0 trig
        (pyStrip (String.mk ((pyStrip raw).data.drop trig.length)))).2) := by
    unfold on_receive citizen_block
    simp [h1, h2, h3, h4, h5, CHANNEL_INDEX, is_restricted, hping, hstatus,
      hsafe, h911, hmenu, htrig]
  refine ⟨hmain, dispatch_sos_registers_fresh_session radio now st sender
    (get_node_name radio sender) 0 trig
    (pyStrip (String.mk ((pyStrip raw).data.drop trig.length))), ?_⟩
  rw [hmain]
  intro e he
  rcases List.mem_cons.1 he with he | he
  · subst he; rfl
  · exact dispatch_sos_no_sos_closed radio now st sender
      (get_node_name radio sender) 0 trig
      (pyStrip (String.mk ((pyStrip raw).data.drop trig.length))) e he

/-- C6 amended: a responder numeric reply k (1-based, in range) against a
pending cancel snapshot removes exactly the k-th snapshot entry from the
restricted list and consumes the snapshot; but a second identical numeric
reply, with the snapshot consumed, is not answered with the "Invalid"
notice - it falls through every gate and is enqueued as a general chat
message (the "Invalid" notice is reserved for an out-of-range numeric
while a snapshot is still pending). -/
theorem c6_cancel_snapshot_semantics (radio : Radio) (now : Int) (st : OpState) (raw sender : String)
    (rt : Int) (k : Nat)
    (h1 : sender ≠ "") (h2 : sender ≠ "Unknown")
    (h3 : is_my_node radio sender = false)
    (hresp : is_responder sender = true)
    (hdig : pyIsDigit (pyStrip (pyLower (pyStrip raw))) = true)
    (hk : pyParseNat (pyStrip (pyLower (pyStrip raw))) = k) :
    (∀ lst entry, alistGet st.pending_cancel sender = some lst → lst ≠ [] →
      1 ≤ k → k ≤ lst.length →
      alistGet st.restricted_list (lst.getD (k - 1) "") = some entry →
      on_receive radio now st
        { decodedText := some raw, fromId := some sender, channel := 0, rxTime := rt } =
      ({ st with
          restricted_list := alistRemove st.restricted_list (lst.getD (k - 1) "")
          pending_cancel := alistRemove st.pending_cancel sender },
        [.log (.rx sender (get_node_name radio sender) (pyStrip raw)),
         .send ("[SYSTEM] " ++ entry.phone ++ " removed from restricted list.")
           (some sender) 0,
         .send "[SYSTEM] Your access has been restored. Send !911 or !help if you need assistance."
           (some (lst.getD (k - 1) "")) 0,
         .log (.restriction_lifted (lst.getD (k - 1) "") entry.phone sender)])) ∧
    (alistGet st.pending_cancel sender = none →
      alistGet st.restricted_list sender = none →
      alistGet st.pending_911 sender = none →
      alistGet st.active_sessions sender = none →
      st.queue.length ≤ 15 →
      on_receive radio now st
        { decodedText := some raw, fromId := some sender, channel := 0, rxTime := rt } =
      ({ st with queue := st.queue ++
          [{ sender := sender, message := pyStrip raw, channel := 0,
             is_triage := false }] },
        [.log (.rx sender (get_node_name radio sender) (pyStrip raw))])) := by
  have hspam := digit_ne_lit hdig (t := "!spam") (by decide)
  have hcanc := digit_ne_lit hdig (t := "!cancel") (by decide)
  constructor
  · intro lst entry hpc hne hk1 hk2 hrem
    have hlemp : lst.isEmpty = false := by
      cases lst with
      | nil => exact absurd rfl hne
      | cons a as => rfl
    have hidx0 : (0 : Int) ≤ (k : Int) - 1 := by omega
    have hidx1 : (k : Int) - 1 < (lst.length : Int) := by omega
    have hidxn : ((k : Int) - 1).toNat = k - 1 := by omega
    have hrem2 := hrem
    simp only [List.getD_eq_getElem?_getD] at hrem2
    unfold on_receive responder_block
    simp [h1, h2, h3, hresp, CHANNEL_INDEX, hspam, hcanc, hpc, hlemp, hdig, hk,
      hidx0, hidx1, hidxn, hrem, hrem2]
  · intro hpc hrl hp911 hsess hq
    have hping := digit_ne_lit hdig (t := "!ping") (by decide)
    have hstatus := digit_ne_lit hdig (t := "!status") (by decide)
    have hsafe := digit_ne_lit hdig (t := "!safe") (by decide)
    have h911 := digit_ne_lit hdig (t := "!911") (by decide)
    have htrig := match_trigger_digit hdig
    have hqn : ¬ (15 < st.queue.length) := by omega
    unfold on_receive responder_block citizen_block
    simp [h1, h2, h3, hresp, CHANNEL_INDEX, hspam, hcanc, hpc, hrl, hp911,
      hsess, hq, hping, hstatus, hsafe, h911, htrig, is_restricted, hqn, hdig]

/-- C9: a directory entry whose position has latitude 0 or longitude 0,
or is missing either coordinate, resolves to no GPS (the source tests
`if lat and lon:`), so the SOS acknowledgment and the dispatch line for
that sender read GPS: UNKNOWN although a position record exists - a node
exactly on the equator or prime meridian reports an unknown position. -/
theorem c9_zero_coordinate_reports_unknown_gps (radio : Radio) (now : Int) (st : OpState) (node_id phone : String)
    (chan : Nat) (trigger ctx : String) (node : NodeInfo) (pos : NodePos)
    (hnode : alistGet radio.nodes node_id = some node)
    (hpos : node.position = some pos)
    (hzero : pos.latitude = some 0 ∨ pos.longitude = some 0 ∨
             pos.latitude = none ∨ pos.longitude = none) :
    get_node_gps radio node_id = (none, none) ∧
    ((dispatch_sos radio now st node_id phone chan trigger ctx).2.head? =
      some (.send ("[SOS] " ++ pyUpper trigger ++ " RECEIVED. " ++ "GPS: UNKNOWN")
        (some node_id) chan)) ∧
    (∃ d, Event.send
        (if ctx == "" then
          "[DISPATCH] " ++ pyUpper trigger ++ " | From: " ++ phone ++ " | " ++
            "GPS: UNKNOWN" ++ " | Time: " ++ hhmmss now
         else
          "[DISPATCH] " ++ pyUpper trigger ++ " | From: " ++ phone ++ " | " ++
            "GPS: UNKNOWN" ++ " | Time: " ++ hhmmss now ++ " | " ++
            String.mk (ctx.data.take 80)) d chan ∈
      (dispatch_sos radio now st node_id phone chan trigger ctx).2) := by
  have hgps : get_node_gps radio node_id = (none, none) := by
    unfold get_node_gps
    split
    · rfl
    · rw [hnode]
      rcases hzero with hz | hz | hz | hz <;> simp [hpos, hz, pyTruthyQ]
  refine ⟨hgps, ?_, ?_⟩
  · unfold dispatch_sos
    simp [hgps, gps_str, pyTruthyQ]
  · unfold dispatch_sos
    rcases htarget : (alistGet RESPONDERS trigger).getD none with _ | t
    · refine ⟨some "!aabbccdd", ?_⟩
      simp only [htarget, hgps, gps_str, pyTruthyQ,
        show responderValues.isEmpty = false from by decide, Bool.false_eq_true,
        if_false, List.mem_append, List.mem_cons, List.mem_map,
        List.not_mem_nil, or_false]
      split <;>
        exact Or.inl (Or.inr ⟨"!aabbccdd", by decide, rfl⟩)
    · refine ⟨some t, ?_⟩
      simp only [htarget, hgps, gps_str, pyTruthyQ, List.mem_append,
        List.mem_cons, List.mem_singleton, List.not_mem_nil, or_false]
      split <;> simp

/-- C3 witness at a concrete input: a restricted citizen says hello at
t = 1000 against a lockout expiring at 5000 and gets only the notice. -/
theorem c3_restricted_sender_witness :
    on_receive { nodes := [], myNodeNum := 99 } 1000
      { restricted_list := [("!c3",
          { phone := "Spammer", node_name := "Spammer", locked_until := 5000,
            locked_by := "!aabbccdd" })] }
      { decodedText := some "hello", fromId := some "!c3", channel := 0,
        rxTime := 1000 } =
    ({ restricted_list := [("!c3",
        { phone := "Spammer", node_name := "Spammer", locked_until := 5000,
          locked_by := "!aabbccdd" })] },
     [.log (.rx "!c3" "!c3" "hello"),
      .send "[SYSTEM] Your access has been temporarily restricted by a responder."
        (some "!c3") 0]) :=
  (c3_restricted_sender_gets_single_notice { nodes := [], myNodeNum := 99 } 1000
    { restricted_list := [("!c3",
        { phone := "Spammer", node_name := "Spammer", locked_until := 5000,
          locked_by := "!aabbccdd" })] }
    "hello" "!c3" 1000
    { phone := "Spammer", node_name := "Spammer", locked_until := 5000,
      locked_by := "!aabbccdd" }
    (by decide) (by decide) (by decide) (by decide) (by decide)
    (by decide)).trans (by decide)

/-- C6 counterexample: with the snapshot already consumed by a first
numeric reply, the identical second numeric reply from the same responder
is answered with nothing at all - in particular not with the "Invalid"
notice the claim requires - and is enqueued as a general chat message. -/
theorem c6_second_reply_not_invalid_counterexample :
    (Event.send "[SYSTEM] Invalid number. Send !cancel to see the list again."
        (some "!aabbccdd") 0) ∉
      (on_receive { nodes := [], myNodeNum := 99 } 1000
        { restricted_list := [("!c1",
            { phone := "C1", node_name := "C1", locked_until := 8200,
              locked_by := "!aabbccdd" })] }
        { decodedText := some "2", fromId := some "!aabbccdd", channel := 0,
          rxTime := 0 }).2 ∧
    ((on_receive { nodes := [], myNodeNum := 99 } 1000
        { restricted_list := [("!c1",
            { phone := "C1", node_name := "C1", locked_until := 8200,
              locked_by := "!aabbccdd" })] }
        { decodedText := some "2", fromId := some "!aabbccdd", channel := 0,
          rxTime := 0 }).2.filter Event.isSend) = [] ∧
    (on_receive { nodes := [], myNodeNum := 99 } 1000
        { restricted_list := [("!c1",
            { phone := "C1", node_name := "C1", locked_until := 8200,
              locked_by := "!aabbccdd" })] }
        { decodedText := some "2", fromId := some "!aabbccdd", channel := 0,
          rxTime := 0 }).1.queue =
      [{ sender := "!aabbccdd", message := "2", channel := 0,
         is_triage := false }] := by
  refine ⟨?_, by decide, by decide⟩
  decide

/-- C6 witness at a concrete input: responder reply 2 against the
snapshot removes the second snapshot entry and consumes the snapshot;
the same reply afterwards is enqueued as general chat with no reply. -/
theorem c6_cancel_snapshot_witness :
    on_receive { nodes := [], myNodeNum := 99 } 1000
      { restricted_list := [("!c1",
          { phone := "C1", node_name := "C1", locked_until := 8200,
            locked_by := "!aabbccdd" }),
        ("!c2",
          { phone := "C2", node_name := "C2", locked_until := 8200,
            locked_by := "!aabbccdd" })],
        pending_cancel := [("!aabbccdd", ["!c1", "!c2"])] }
      { decodedText := some "2", fromId := some "!aabbccdd", channel := 0,
        rxTime := 0 } =
    ({ restricted_list := [("!c1",
        { phone := "C1", node_name := "C1", locked_until := 8200,
          locked_by := "!aabbccdd" })] },
     [.log (.rx "!aabbccdd" "!aabbccdd" "2"),
      .send "[SYSTEM] C2 removed from restricted list." (some "!aabbccdd") 0,
      .send "[SYSTEM] Your access has been restored. Send !911 or !help if you need assistance."
        (some "!c2") 0,
      .log (.restriction_lifted "!c2" "C2" "!aabbccdd")]) ∧
    on_receive { nodes := [], myNodeNum := 99 } 1000
      { restricted_list := [("!c1",
          { phone := "C1", node_name := "C1", locked_until := 8200,
            locked_by := "!aabbccdd" })] }
      { decodedText := some "2", fromId := some "!aabbccdd", channel := 0,
        rxTime := 0 } =
    ({ restricted_list := [("!c1",
        { phone := "C1", node_name := "C1", locked_until := 8200,
          locked_by := "!aabbccdd" })],
       queue := [{ sender := "!aabbccdd", message := "2", channel := 0,
                   is_triage := false }] },
     [.log (.rx "!aabbccdd" "!aabbccdd" "2")]) := by
  constructor
  · exact ((c6_cancel_snapshot_semantics { nodes := [], myNodeNum := 99 } 1000
      { restricted_list := [("!c1",
          { phone := "C1", node_name := "C1", locked_until := 8200,
            locked_by := "!aabbccdd" }),
        ("!c2",
          { phone := "C2", node_name := "C2", locked_until := 8200,
            locked_by := "!aabbccdd" })],
        pending_cancel := [("!aabbccdd", ["!c1", "!c2"])] }
      "2" "!aabbccdd" 0 2
      (by decide) (by decide) (by decide) (by decide) (by decide) (by decide)).1
      ["!c1", "!c2"]
      { phone := "C2", node_name := "C2", locked_until := 8200,
        locked_by := "!aabbccdd" }
      (by decide) (by decide) (by decide) (by decide) (by decide)).trans
      (by decide)
  · exact ((c6_cancel_snapshot_semantics { nodes := [], myNodeNum := 99 } 1000
      { restricted_list := [("!c1",
          { phone := "C1", node_name := "C1", locked_until := 8200,
            locked_by := "!aabbccdd" })] }
      "2" "!aabbccdd" 0 2
      (by decide) (by decide) (by decide) (by decide) (by decide) (by decide)).2
      (by decide) (by decide) (by decide) (by decide) (by decide)).trans
      (by decide)

/-- C7 witness at a concrete input: `!safe` with an open `!fire` session
closes it (reason `safe`, duration 100 s), notifies the firehouse node
and the sender; `!safe` against the empty state only reports that there
is nothing to cancel. -/
theorem c7_safe_witness :
    on_receive { nodes := [], myNodeNum := 99 } 1000
      { active_sessions := [("!n7",
          { sender_id := "!n7", phone := "N7", node_name := "N7",
            trigger := "!fire", context := "", gps_lat := none, gps_lon := none,
            dispatched_to := some "!eeff0011", started_at := 900,
            last_activity := 900, exchanges := [] })] }
      { decodedText := some "!safe", fromId := some "!n7", channel := 0,
        rxTime := 0 } =
    ({},
     [.log (.rx "!n7" "!n7" "!safe"),
      .log (.sos_closed "safe" "!n7" "N7" "!fire" "" none none
        (some "!eeff0011") 900 0 100),
      .send "[CANCELLED] !FIRE from !n7 marked SAFE by sender. Use your judgment."
        (some "!eeff0011") 0,
      .send "[SYSTEM] SOS cancelled. Responders notified. Stay safe."
        (some "!n7") 0]) ∧
    on_receive { nodes := [], myNodeNum := 99 } 1000 {}
      { decodedText := some "!safe", fromId := some "!n7", channel := 0,
        rxTime := 0 } =
    ({},
     [.log (.rx "!n7" "!n7" "!safe"),
      .send "[SYSTEM] No active SOS to cancel." (some "!n7") 0]) := by
  constructor
  · exact ((c7_safe_closes_session_then_reports_none
      { nodes := [], myNodeNum := 99 } 1000
      { active_sessions := [("!n7",
          { sender_id := "!n7", phone := "N7", node_name := "N7",
            trigger := "!fire", context := "", gps_lat := none, gps_lon := none,
            dispatched_to := some "!eeff0011", started_at := 900,
            last_activity := 900, exchanges := [] })] }
      "!safe" "!n7" 0
      (by decide) (by decide) (by decide) (by decide) (by decide) (by decide)).1
      { sender_id := "!n7", phone := "N7", node_name := "N7",
        trigger := "!fire", context := "", gps_lat := none, gps_lon := none,
        dispatched_to := some "!eeff0011", started_at := 900,
        last_activity := 900, exchanges := [] }
      (by decide)).trans (by decide)
  · exact ((c7_safe_closes_session_then_reports_none
      { nodes := [], myNodeNum := 99 } 1000 {} "!safe" "!n7" 0
      (by decide) (by decide) (by decide) (by decide) (by decide) (by decide)).2
      (by decide)).trans (by decide)

/-- C9 witness at a concrete input: a node sitting exactly on the equator
(latitude 0, longitude 50) resolves to no coordinates and its SOS
acknowledgment reads GPS: UNKNOWN. -/
theorem c9_equator_witness :
    get_node_gps
      { nodes := [("!eq",
          { user := none,
            position := some { latitude := some 0, longitude := some 50 } })],
        myNodeNum := 99 } "!eq" = (none, none) ∧
    (dispatch_sos
      { nodes := [("!eq",
          { user := none,
            position := some { latitude := some 0, longitude := some 50 } })],
        myNodeNum := 99 } 1000 {} "!eq" "EQ" 0 "!fire" "").2.head? =
      some (.send "[SOS] !FIRE RECEIVED. GPS: UNKNOWN" (some "!eq") 0) := by
  have h := c9_zero_coordinate_reports_unknown_gps
    { nodes := [("!eq",
        { user := none,
          position := some { latitude := some 0, longitude := some 50 } })],
      myNodeNum := 99 } 1000 {} "!eq" "EQ" 0 "!fire" ""
    { user := none,
      position := some { latitude := some 0, longitude := some 50 } }
    { latitude := some 0, longitude := some 50 }
    (by decide) (by decide) (Or.inl (by decide))
  exact ⟨h.1, h.2.1.trans (by decide)⟩

/-- C10 witness at a concrete input: a sender with an open `!fire`
session sends `!fire oven`; the router performs a full new dispatch, the
session map holds the freshly created session in place of the old one,
and no `sos_closed` record appears. -/
theorem c10_retrigger_witness :
    on_receive { nodes := [], myNodeNum := 99 } 1000
      { active_sessions := [("!n7",
          { sender_id := "!n7", phone := "N7", node_name := "N7",
            trigger := "!fire", context := "", gps_lat := none, gps_lon := none,
            dispatched_to := some "!eeff0011", started_at := 900,
            last_activity := 900, exchanges := [] })] }
      { decodedText := some "!fire oven", fromId := some "!n7", channel := 0,
        rxTime := 0 } =
    ({ active_sessions := [("!n7",
        { sender_id := "!n7", phone := "!n7", node_name := "!n7",
          trigger := "!fire", context := "oven", gps_lat := none,
          gps_lon := none, dispatched_to := some "!eeff0011",
          started_at := 1000, last_activity := 1000,
          exchanges := [{ ts := 1000, role := "citizen", msg := "oven" }] })],
       last_dispatch_to := [("!eeff0011", "!n7")],
       queue := [{ sender := "!n7", message := "oven", channel := 0,
                   is_triage := true }] },
     [.log (.rx "!n7" "!n7" "!fire oven"),
      .send "[SOS] !FIRE RECEIVED. GPS: UNKNOWN" (some "!n7") 0,
      .send "[SOS] If triggered by accident, send !safe to cancel."
        (some "!n7") 0,
      .send "[DISPATCH] !FIRE | From: !n7 | GPS: UNKNOWN | Time: 00:16:40 | oven"
        (some "!eeff0011") 0,
      .log (.sos_dispatch "!n7" "!n7" "!fire" "oven" none none "!eeff0011")]) ∧
    ((on_receive { nodes := [], myNodeNum := 99 } 1000
      { active_sessions := [("!n7",
          { sender_id := "!n7", phone := "N7", node_name := "N7",
            trigger := "!fire", context := "", gps_lat := none, gps_lon := none,
            dispatched_to := some "!eeff0011", started_at := 900,
            last_activity := 900, exchanges := [] })] }
      { decodedText := some "!fire oven", fromId := some "!n7", channel := 0,
        rxTime := 0 }).2.all (fun e => !e.isSosClosed)) = true := by
  have h := c10_retrigger_dispatches_and_overwrites_session
    { nodes := [], myNodeNum := 99 } 1000
    { active_sessions := [("!n7",
        { sender_id := "!n7", phone := "N7", node_name := "N7",
          trigger := "!fire", context := "", gps_lat := none, gps_lon := none,
          dispatched_to := some "!eeff0011", started_at := 900,
          last_activity := 900, exchanges := [] })] }
    "!fire oven" "!n7" 0 "!fire"
    { sender_id := "!n7", phone := "N7", node_name := "N7",
      trigger := "!fire", context := "", gps_lat := none, gps_lon := none,
      dispatched_to := some "!eeff0011", started_at := 900,
      last_activity := 900, exchanges := [] }
    (by decide) (by decide) (by decide) (by decide) (by decide) (by decide)
    (by decide)
  refine ⟨h.1.trans (by decide), List.all_eq_true.2 (fun e he => ?_)⟩
  simpa using h.2.2 e he

end OperatorV7
